import Mathlib

/-!
# Verification of the signalmice agent

A shallow embedding of the signalmice repository: the Redis signal watcher
(`Client.CheckAndDeleteKey`), the shutdown orchestration
(`Manager.NeutralizeStuartLittle` with its three methods), the main control
loop (`mainRun` / `mainLoop`), and the logger (`NewLogger`, `Logger.log`).
External effects (Redis round trips, `os.Stat`, file writes, command
execution, the Opensearch connection) are modelled by explicit environment
records that fix the outcome of each effectful call; Go errors built with
`fmt.Errorf` are modelled by the inductive `GoError`, where the `%w` verb
becomes the `wrap` constructor.
-/

namespace Signalmice

/-- A Go `error` value: either a leaf error with a message, or an error that
wraps an inner error (`fmt.Errorf` with the `%w` verb). -/
inductive GoError where
  | base (msg : String)
  | wrap (msg : String) (inner : GoError)
deriving DecidableEq, Repr

/-- `errors.Unwrap`: the error wrapped by `fmt.Errorf(..., %w, ...)`, if any. -/
def GoError.unwrapErr : GoError → Option GoError
  | .base _ => none
  | .wrap _ inner => some inner

/-! ## internal/redis: the signal watcher -/

/-- The key-value content of the Redis store, as an association list. -/
abbrev Store := List (String × String)

/-- `GET k`: the value stored at `k`, if present. -/
def Store.getVal (st : Store) (k : String) : Option String :=
  (st.find? (fun p => p.1 = k)).map Prod.snd

/-- `DEL k`: the store with every binding of `k` removed. -/
def Store.delKey (st : Store) (k : String) : Store :=
  st.filter (fun p => ¬ p.1 = k)

/-- Failure injection for the two Redis round trips of one check:
`getErr` is a transport error of `GET` (distinct from `redis.Nil`, which the
model derives from key absence), `delErr` is an error of `DEL`. -/
structure RedisEnv where
  getErr : Option GoError
  delErr : Option GoError
deriving DecidableEq, Repr

/-- `redis.Client`: the wrapper holding the configured signal key. -/
structure Client where
  key : String
deriving DecidableEq, Repr

/-- `CheckAndDeleteKey`: GET the configured key; `redis.Nil` (absence) yields
`(false, nil)`; another GET error is wrapped and propagated; on presence, DEL
the key, propagating a wrapped DEL error, else return `(true, nil)`.
Returns the `(found, err)` pair together with the resulting store (unchanged
except for a successful DEL). -/
def Client.CheckAndDeleteKey (c : Client) (env : RedisEnv) (st : Store) :
    (Bool × Option GoError) × Store :=
  match env.getErr with
  | some e => ((false, some (.wrap "failed to get key" e)), st)
  | none =>
    match st.getVal c.key with
    | none => ((false, none), st)
    | some _ =>
      match env.delErr with
      | some e => ((false, some (.wrap "failed to delete key" e)), st)
      | none => ((true, none), st.delKey c.key)

/-! ## internal/shutdown: the shutdown orchestration -/

/-- Result of `os.Stat` on the host proc path, as classified by
`os.IsNotExist`: the path exists, does not exist, or `Stat` failed with some
other error (for which `os.IsNotExist` is false and the code proceeds). -/
inductive StatResult where
  | ok
  | notExist
  | otherError (e : GoError)
deriving DecidableEq, Repr

/-- The outcomes of every external effect a single orchestration run can
perform: the `nsenter` command, `os.Stat` on the host proc path, the three
single-byte writes to `sysrq-trigger`, and the `poweroff` / `shutdown -h now`
commands (`none` means the effect succeeded). The `*Output` fields are the
combined output captured from the corresponding command. -/
structure SysEnv where
  nsenterResult : Option GoError
  nsenterOutput : String
  statHostProc : StatResult
  writeS : Option GoError
  writeU : Option GoError
  writeO : Option GoError
  poweroffResult : Option GoError
  poweroffOutput : String
  shutdownHResult : Option GoError
  shutdownHOutput : String
deriving DecidableEq, Repr

/-- `shutdown.Manager`: holds the configured host proc path. -/
structure Manager where
  hostProcPath : String
deriving DecidableEq, Repr

/-- `shutdownViaNsenter`: run `nsenter --target 1 ... poweroff`; on command
failure return an error wrapping it (with the combined output in the
message), else succeed. -/
def Manager.shutdownViaNsenter (_m : Manager) (env : SysEnv) : Except GoError Unit :=
  match env.nsenterResult with
  | none => .ok ()
  | some err =>
      .error (.wrap ("nsenter poweroff failed, output: " ++ env.nsenterOutput) err)

/-- `shutdownViaSysrq`, instrumented with the list of bytes written to the
`sysrq-trigger` control file and the warning messages logged.  If the host
proc path does not exist the method fails at once with a "not mounted" base
error and writes nothing; otherwise the `s` (sync) and `u` (remount
read-only) writes are attempted unconditionally, their failures only logging
a warning, and the result is decided by the final `o` (power off) write. -/
def Manager.shutdownViaSysrqT (m : Manager) (env : SysEnv) :
    List String × List String × Except GoError Unit :=
  if env.statHostProc = .notExist then
    ([], [], .error (.base ("host proc path not mounted: " ++ m.hostProcPath)))
  else
    let warnS := match env.writeS with
      | some _ => ["Failed to sync filesystems via sysrq"]
      | none => []
    let warnU := match env.writeU with
      | some _ => ["Failed to remount filesystems read-only via sysrq"]
      | none => []
    (["s", "u", "o"], warnS ++ warnU,
      match env.writeO with
      | none => .ok ()
      | some err => .error (.wrap "failed to write to sysrq-trigger" err))

/-- `shutdownViaSysrq`: the result of the instrumented version. -/
def Manager.shutdownViaSysrq (m : Manager) (env : SysEnv) : Except GoError Unit :=
  (m.shutdownViaSysrqT env).2.2

/-- `shutdownViaDirect`: try `poweroff`; if it fails, try `shutdown -h now`;
if that also fails, return an error wrapping the fallback's error. -/
def Manager.shutdownViaDirect (_m : Manager) (env : SysEnv) : Except GoError Unit :=
  match env.poweroffResult with
  | none => .ok ()
  | some _ =>
      match env.shutdownHResult with
      | none => .ok ()
      | some err =>
          .error (.wrap ("shutdown commands failed, output: " ++ env.shutdownHOutput) err)

/-- One entry of the anonymous method table in `NeutralizeStuartLittle`. -/
structure MethodSpec where
  name : String
  fn : SysEnv → Except GoError Unit

/-- The fixed ordered method table of `NeutralizeStuartLittle`. -/
def Manager.methods (m : Manager) : List MethodSpec :=
  [⟨"nsenter", m.shutdownViaNsenter⟩,
   ⟨"sysrq-trigger", m.shutdownViaSysrq⟩,
   ⟨"direct-command", m.shutdownViaDirect⟩]

/-- The `for _, method := range methods` loop of `NeutralizeStuartLittle`:
on a method's success return `nil` at once; on failure remember the error in
`lastErr` and continue; when the methods are exhausted return an error
wrapping `lastErr`.  Also returns the names of the methods attempted, in
order. -/
def neutralizeLoop (env : SysEnv) :
    List MethodSpec → Option GoError → List String × Option GoError
  | [], lastErr =>
      ([], some (match lastErr with
        | some e => .wrap "all shutdown methods failed, last error" e
        | none => .base "all shutdown methods failed, last error: nil"))
  | meth :: rest, _ =>
      match meth.fn env with
      | .error e =>
          let r := neutralizeLoop env rest (some e)
          (meth.name :: r.1, r.2)
      | .ok _ => ([meth.name], none)

/-- `NeutralizeStuartLittle`, instrumented with the attempted method names:
runs the fixed method table with `lastErr` initially `nil`. -/
def Manager.neutralizeStuartLittleT (m : Manager) (env : SysEnv) :
    List String × Option GoError :=
  neutralizeLoop env m.methods none

/-- `NeutralizeStuartLittle`: `none` models a `nil` error return. -/
def Manager.NeutralizeStuartLittle (m : Manager) (env : SysEnv) : Option GoError :=
  (m.neutralizeStuartLittleT env).2

/-! ## internal/config -/

/-- The process environment, as an association list of variables. -/
abbrev EnvVars := List (String × String)

/-- `os.LookupEnv`. -/
def lookupEnv (env : EnvVars) (k : String) : Option String :=
  (env.find? (fun p => p.1 = k)).map Prod.snd

/-- `getEnv`: the variable's value, or the default when unset. -/
def getEnv (env : EnvVars) (key defaultValue : String) : String :=
  match lookupEnv env key with
  | some v => v
  | none => defaultValue

/-- `getEnvBool`: true exactly for the strings "true", "1", "yes"; the
default when unset. -/
def getEnvBool (env : EnvVars) (key : String) (defaultValue : Bool) : Bool :=
  match lookupEnv env key with
  | some v => v = "true" || v = "1" || v = "yes"
  | none => defaultValue

/-- `config.Config`: `CheckInterval` is kept in seconds. -/
structure Config where
  RedisHost : String
  RedisPort : String
  RedisPassword : String
  RedisDB : Int
  OpensearchURL : String
  OpensearchUsername : String
  OpensearchPassword : String
  OpensearchIndex : String
  OpensearchUseDailyIndex : Bool
  RedisKey : String
  CheckInterval : Int
  HostProcPath : String
deriving DecidableEq, Repr

/-- `DefaultRedisKey`. -/
def DefaultRedisKey : String := "signalmice:00000000-0000-0000-0000-000000000000"

/-- `config.Load`: read every option from the environment with its default
(`strconv.Atoi` returns 0 on a malformed number, which the Go code ignores). -/
def Config.Load (env : EnvVars) : Config :=
  { RedisHost := getEnv env "REDIS_HOST" "localhost"
    RedisPort := getEnv env "REDIS_PORT" "6379"
    RedisPassword := getEnv env "REDIS_PASSWORD" ""
    RedisDB := ((getEnv env "REDIS_DB" "0").toInt?).getD 0
    OpensearchURL := getEnv env "OPENSEARCH_URL" "http://localhost:9200"
    OpensearchUsername := getEnv env "OPENSEARCH_USERNAME" ""
    OpensearchPassword := getEnv env "OPENSEARCH_PASSWORD" ""
    OpensearchIndex := getEnv env "OPENSEARCH_INDEX" "signalmice-logs"
    OpensearchUseDailyIndex := getEnvBool env "OPENSEARCH_USE_DAILY_INDEX" true
    RedisKey := getEnv env "SIGNALMICE_KEY" DefaultRedisKey
    CheckInterval := ((getEnv env "SIGNALMICE_CHECK_INTERVAL" "60").toInt?).getD 0
    HostProcPath := getEnv env "HOST_PROC_PATH" "/host/proc" }

/-- `shutdown.NewManager`. -/
def NewManager (cfg : Config) : Manager :=
  { hostProcPath := cfg.HostProcPath }

/-! ## internal/logger -/

/-- `logger.LogEntry`: the structured document sent to the remote sink. -/
structure LogEntry where
  timestamp : String
  level : String
  message : String
  hostname : String
  service : String
  redisKey : String
  extra : Option String
deriving DecidableEq, Repr

/-- `logger.Logger`: `client = none` models a `nil` Opensearch client
(stdout-only logging); `some ()` a live client. -/
structure Logger where
  client : Option Unit
  index : String
  hostname : String
  redisKey : String
deriving DecidableEq, Repr

/-- The external effects of `NewLogger`: the hostname lookup, the result of
`opensearch.NewClient`, and the result of the `client.Info()` connection
test (`none` means success). -/
structure LoggerEnv where
  hostname : String
  newClientErr : Option GoError
  infoErr : Option GoError
deriving DecidableEq, Repr

/-- `NewLogger`: a `NewClient` failure is returned as a wrapped error; a
failed `Info()` connection test only logs a warning and yields a logger with
a `nil` client and a `nil` error; otherwise the logger keeps the client. -/
def NewLogger (cfg : Config) (env : LoggerEnv) : Except GoError Logger :=
  match env.newClientErr with
  | some e => .error (.wrap "failed to create Opensearch client" e)
  | none =>
    match env.infoErr with
    | some _ =>
        .ok { client := none, index := cfg.OpensearchIndex,
              hostname := env.hostname, redisKey := cfg.RedisKey }
    | none =>
        .ok { client := some (), index := cfg.OpensearchIndex,
              hostname := env.hostname, redisKey := cfg.RedisKey }

/-- `Logger.log`: always produce the stdout line `[LEVEL] message`; dispatch
the structured entry to the remote sink only when the client is non-nil
(`none` in the second component means no remote delivery). `now` is the
RFC3339-formatted current UTC time. -/
def Logger.log (l : Logger) (level message now : String) (extra : Option String) :
    String × Option LogEntry :=
  ("[" ++ level ++ "] " ++ message,
   match l.client with
   | none => none
   | some _ =>
       some { timestamp := now, level := level, message := message,
              hostname := l.hostname, service := "signalmice",
              redisKey := l.redisKey, extra := extra })

/-- Modelled from the spec: the daily-index-aware logger state.  The
implementation that decides the remote index name is not among the sources
(only its tests, which reference the fields `baseIndex` and `useDailyIndex`
and the function `getIndexName`, and the `OpensearchUseDailyIndex`
configuration option are); per the spec the remote document index "name may
be static or date-suffixed (UTC calendar day) depending on configuration". -/
structure DailyLogger where
  client : Option Unit
  baseIndex : String
  useDailyIndex : Bool
  hostname : String
  redisKey : String
deriving DecidableEq, Repr

/-- Modelled from the spec: `getIndexName` returns the configured base index
name suffixed with the current UTC calendar day (`utcDay`, formatted
YYYY-MM-DD) when daily indices are enabled, and the static base name
otherwise. -/
def DailyLogger.getIndexName (l : DailyLogger) (utcDay : String) : String :=
  if l.useDailyIndex then l.baseIndex ++ "-" ++ utcDay else l.baseIndex

/-- Modelled from the spec: the remote delivery of `sendToOpensearch`
addresses the document to the index named by `getIndexName`; the returned
pair is the target index name and the delivered document. -/
def DailyLogger.sendToOpensearch (l : DailyLogger) (entry : LogEntry)
    (utcDay : String) : String × LogEntry :=
  (l.getIndexName utcDay, entry)

/-! ## cmd/signalmice: the control loop -/

/-- The observable outcome of one `checkAndShutdown` detection cycle. -/
inductive CycleOutcome where
  | checkError (e : GoError)
  | notFound
  | shutdownFailed (e : GoError)
  | shutdownInitiated
deriving DecidableEq, Repr

/-- The environment of one detection cycle: the Redis transport outcomes and
the shutdown effect outcomes for that cycle. -/
structure CycleEnv where
  redis : RedisEnv
  sys : SysEnv
deriving DecidableEq, Repr

/-- `checkAndShutdown`: check-and-delete the signal key; on a check error
log and end the cycle; if the key is absent end the cycle silently; if it was
found (and deleted) run `NeutralizeStuartLittle` and log its outcome.  The
function always returns to the caller; the cycle's outcome is reported for
the loop-level theorems. -/
def checkAndShutdown (c : Client) (m : Manager) (env : CycleEnv) (st : Store) :
    Store × CycleOutcome :=
  let r := c.CheckAndDeleteKey env.redis st
  match r.1.2 with
  | some e => (r.2, .checkError e)
  | none =>
    if r.1.1 = false then
      (r.2, .notFound)
    else
      match m.NeutralizeStuartLittle env.sys with
      | some e => (r.2, .shutdownFailed e)
      | none => (r.2, .shutdownInitiated)

/-- One arrival at the `select` of the main loop: either the ticker fires
(with that cycle's effect environment) or a termination signal arrives. -/
inductive LoopEvent where
  | tick (env : CycleEnv)
  | termSignal
deriving DecidableEq, Repr

/-- Whether an event is a ticker tick. -/
def LoopEvent.isTick : LoopEvent → Bool
  | .tick _ => true
  | .termSignal => false

/-- How a run of the main loop ended: `terminated` models the `return` taken
on a termination signal; `eventsExhausted` means the loop was still running
when the supplied event trace ran out. -/
inductive LoopExit where
  | terminated
  | eventsExhausted
deriving DecidableEq, Repr

/-- The `for { select { ... } }` of `main`: each tick runs one
`checkAndShutdown` cycle (threading the store) and continues; a termination
signal cancels and returns.  Returns the outcomes of the cycles run, in
order, and how the loop ended. -/
def mainLoop (c : Client) (m : Manager) :
    Store → List LoopEvent → List CycleOutcome × LoopExit
  | _, [] => ([], .eventsExhausted)
  | st, .tick env :: rest =>
      let r := checkAndShutdown c m env st
      let l := mainLoop c m r.1 rest
      (r.2 :: l.1, l.2)
  | _, .termSignal :: _ => ([], .terminated)

/-- Lines 68–82 of `main`: run one initial `checkAndShutdown` cycle
immediately, then enter the event loop. `initEnv` is the effect environment
of the initial cycle. -/
def mainRun (c : Client) (m : Manager) (initEnv : CycleEnv) (st : Store)
    (events : List LoopEvent) : List CycleOutcome × LoopExit :=
  let r := checkAndShutdown c m initEnv st
  let l := mainLoop c m r.1 events
  (r.2 :: l.1, l.2)

/-- Deleting a key removes every binding of it. -/
theorem Store.getVal_delKey_self (st : Store) (k : String) :
    (st.delKey k).getVal k = none := by
  induction st with
  | nil => rfl
  | cons p rest ih =>
    by_cases h : p.1 = k
    · simp [Store.delKey, Store.getVal, List.filter, h] at ih ⊢
    · simp [Store.delKey, Store.getVal, List.filter, List.find?, h] at ih ⊢

/-- C3: check-and-clear consumes the trigger.  With no transport failures, a
check against a store without the key returns `(false, nil)` and leaves the
store untouched (no delete); a check against a store holding the key returns
`(true, nil)` and removes the key, so the immediately following check (no
intervening external write) returns `(false, nil)` and again leaves the store
untouched. -/
theorem checkAndDeleteKey_consumes_trigger (c : Client) (env env' : RedisEnv)
    (st : Store)
    (hget : env.getErr = none) (hdel : env.delErr = none)
    (hget' : env'.getErr = none) :
    (st.getVal c.key = none →
      c.CheckAndDeleteKey env st = ((false, none), st)) ∧
    (∀ v, st.getVal c.key = some v →
      c.CheckAndDeleteKey env st = ((true, none), st.delKey c.key) ∧
      c.CheckAndDeleteKey env' (st.delKey c.key) =
        ((false, none), st.delKey c.key)) := by
  constructor
  · intro habs
    simp [Client.CheckAndDeleteKey, hget, habs]
  · intro v hpres
    refine ⟨?_, ?_⟩
    · simp [Client.CheckAndDeleteKey, hget, hpres, hdel]
    · simp [Client.CheckAndDeleteKey, hget', Store.getVal_delKey_self]

/-- Witness for C3 at a concrete store: the key `"signalmice:k"` is present
with value `"shutdown"`, the first check detects and deletes it, the second
check does not detect it, and a check on the empty store detects nothing. -/
theorem checkAndDeleteKey_consumes_trigger_witness :
    (Client.CheckAndDeleteKey ⟨"signalmice:k"⟩ ⟨none, none⟩ [] = ((false, none), []) ∧
     Client.CheckAndDeleteKey ⟨"signalmice:k"⟩ ⟨none, none⟩
        [("signalmice:k", "shutdown")] = ((true, none), []) ∧
     Client.CheckAndDeleteKey ⟨"signalmice:k"⟩ ⟨none, none⟩ [] = ((false, none), [])) := by
  have h := checkAndDeleteKey_consumes_trigger ⟨"signalmice:k"⟩ ⟨none, none⟩
    ⟨none, none⟩ [("signalmice:k", "shutdown")] rfl rfl rfl
  have h2 := h.2 "shutdown" rfl
  refine ⟨?_, ?_, ?_⟩
  · exact (checkAndDeleteKey_consumes_trigger ⟨"signalmice:k"⟩ ⟨none, none⟩
      ⟨none, none⟩ [] rfl rfl rfl).1 rfl
  · exact h2.1
  · exact h2.2

/-- C7: if the key is present, the GET succeeds, and the DEL fails, the check
returns `found = false` together with a propagated error wrapping the delete
failure, and the store (hence the trigger) is left in place to be re-observed
on a later cycle. -/
theorem checkAndDeleteKey_delete_failure (c : Client) (env : RedisEnv)
    (st : Store) (v : String) (e : GoError)
    (hget : env.getErr = none) (hpres : st.getVal c.key = some v)
    (hdel : env.delErr = some e) :
    c.CheckAndDeleteKey env st = ((false, some (.wrap "failed to delete key" e)), st) ∧
    ((c.CheckAndDeleteKey env st).1.2.map GoError.unwrapErr) = some (some e) := by
  refine ⟨?_, ?_⟩ <;>
    simp [Client.CheckAndDeleteKey, hget, hpres, hdel, GoError.unwrapErr]

/-- Witness for C7: concrete store holding the key, DEL fails with a base
error; the check reports `false` and an error wrapping the DEL failure. -/
theorem checkAndDeleteKey_delete_failure_witness :
    Client.CheckAndDeleteKey ⟨"k"⟩ ⟨none, some (.base "conn reset")⟩ [("k", "v")] =
      ((false, some (.wrap "failed to delete key" (.base "conn reset"))), [("k", "v")]) :=
  (checkAndDeleteKey_delete_failure ⟨"k"⟩ ⟨none, some (.base "conn reset")⟩
    [("k", "v")] "v" (.base "conn reset") rfl rfl rfl).1

/-- C9: the outcome of check-and-clear is independent of the stored value.
Two stores that agree on the *presence* of the configured key yield, under the
same transport environment, the same `(found, err)` pair and post-states that
again agree on the presence of the key; the value is never interpreted. -/
theorem checkAndDeleteKey_value_independent (c : Client) (env : RedisEnv)
    (st₁ st₂ : Store)
    (hpres : (st₁.getVal c.key).isSome = (st₂.getVal c.key).isSome) :
    (c.CheckAndDeleteKey env st₁).1 = (c.CheckAndDeleteKey env st₂).1 ∧
    (((c.CheckAndDeleteKey env st₁).2.getVal c.key).isSome =
      ((c.CheckAndDeleteKey env st₂).2.getVal c.key).isSome) := by
  rcases hg : env.getErr with _ | e
  · rcases h1 : st₁.getVal c.key with _ | v₁
    · rcases h2 : st₂.getVal c.key with _ | v₂
      · simp [Client.CheckAndDeleteKey, hg, h1, h2]
      · rw [h1, h2] at hpres; simp at hpres
    · rcases h2 : st₂.getVal c.key with _ | v₂
      · rw [h1, h2] at hpres; simp at hpres
      · rcases hd : env.delErr with _ | e'
        · simp [Client.CheckAndDeleteKey, hg, h1, h2, hd, Store.getVal_delKey_self]
        · simp [Client.CheckAndDeleteKey, hg, h1, h2, hd, hpres]
  · simp [Client.CheckAndDeleteKey, hg, hpres]

/-- Witness for C9: two stores holding different values at the key produce the
same `(found, err)` outcome and key-free post-states. -/
theorem checkAndDeleteKey_value_independent_witness :
    (Client.CheckAndDeleteKey ⟨"k"⟩ ⟨none, none⟩ [("k", "a")]).1 =
      (Client.CheckAndDeleteKey ⟨"k"⟩ ⟨none, none⟩ [("k", "zzz")]).1 ∧
    (((Client.CheckAndDeleteKey ⟨"k"⟩ ⟨none, none⟩ [("k", "a")]).2.getVal "k").isSome =
      ((Client.CheckAndDeleteKey ⟨"k"⟩ ⟨none, none⟩ [("k", "zzz")]).2.getVal "k").isSome) :=
  checkAndDeleteKey_value_independent ⟨"k"⟩ ⟨none, none⟩ [("k", "a")] [("k", "zzz")] rfl

/-- The method loop stops at the first success: if the methods at indices
`0 … k-1` fail and the method at index `k` succeeds, the loop returns `nil`
and attempts the first `k+1` methods, in order. -/
theorem neutralizeLoop_first_success (env : SysEnv) :
    ∀ (ms : List MethodSpec) (lastErr : Option GoError) (k : Nat) (hk : k < ms.length),
      (∀ i (hi : i < k), ∃ e, (ms.get ⟨i, Nat.lt_trans hi hk⟩).fn env = .error e) →
      (ms.get ⟨k, hk⟩).fn env = .ok () →
      neutralizeLoop env ms lastErr = ((ms.take (k + 1)).map MethodSpec.name, none)
  | [], _, k, hk, _, _ => absurd hk (by simp)
  | meth :: rest, lastErr, 0, hk, _, hsucc => by
      simp only [List.get] at hsucc
      simp [neutralizeLoop, hsucc]
  | meth :: rest, lastErr, k + 1, hk, hfail, hsucc => by
      obtain ⟨e, he⟩ := hfail 0 (Nat.succ_pos k)
      simp only [List.get] at he hsucc
      have ih := neutralizeLoop_first_success env rest (some e) k
        (Nat.lt_of_succ_lt_succ hk)
        (fun i hi => hfail (i + 1) (Nat.succ_lt_succ hi))
        hsucc
      simp [neutralizeLoop, he, ih]

/-- The method loop after total failure: if every method fails, all methods
are attempted in order and the loop returns an error wrapping exactly the
last method's error. -/
theorem neutralizeLoop_all_fail (env : SysEnv) :
    ∀ (ms : List MethodSpec) (lastErr : Option GoError) (errOf : Nat → GoError),
      ms ≠ [] →
      (∀ i (hi : i < ms.length), (ms.get ⟨i, hi⟩).fn env = .error (errOf i)) →
      neutralizeLoop env ms lastErr =
        (ms.map MethodSpec.name,
         some (.wrap "all shutdown methods failed, last error" (errOf (ms.length - 1))))
  | [], _, _, hne, _ => absurd rfl hne
  | [meth], lastErr, errOf, _, hfail => by
      have h0 := hfail 0 (by simp)
      simp only [List.get] at h0
      simp [neutralizeLoop, h0]
  | meth :: next :: rest, lastErr, errOf, _, hfail => by
      have h0 := hfail 0 (by simp)
      have h1 := hfail 1 (by simp)
      simp only [List.get] at h0 h1
      have ih := neutralizeLoop_all_fail env (next :: rest) (some (errOf 0))
        (fun i => errOf (i + 1)) (by simp)
        (fun i hi => hfail (i + 1) (Nat.succ_lt_succ hi))
      simp only [neutralizeLoop, h0, h1, List.length_cons,
        Nat.add_sub_cancel, Prod.mk.injEq] at ih ⊢
      exact ⟨by rw [List.map_cons, ← ih.1], ih.2⟩

/-- C1: first-success-wins over the fixed method sequence
nsenter, sysrq-trigger, direct-command.  If every method before (0-based)
index `k` fails on the given environment and the method at index `k`
succeeds, `NeutralizeStuartLittle` returns no error and attempts exactly the
methods up to and including the successful one — the first `k+1` names of
the table, in priority order — so no later method is ever invoked. -/
theorem neutralizeStuartLittle_first_success (m : Manager) (env : SysEnv)
    (k : Nat) (hk : k < m.methods.length)
    (hfail : ∀ i (hi : i < k),
      ∃ e, (m.methods.get ⟨i, Nat.lt_trans hi hk⟩).fn env = .error e)
    (hsucc : (m.methods.get ⟨k, hk⟩).fn env = .ok ()) :
    m.NeutralizeStuartLittle env = none ∧
    (m.neutralizeStuartLittleT env).1 =
      (m.methods.take (k + 1)).map MethodSpec.name := by
  have h := neutralizeLoop_first_success env m.methods none k hk hfail hsucc
  exact ⟨by simp [Manager.NeutralizeStuartLittle, Manager.neutralizeStuartLittleT, h],
         by simp [Manager.neutralizeStuartLittleT, h]⟩

/-- Witness for C1: nsenter fails, sysrq succeeds (index `k = 1`); the run
returns no error and attempts exactly `nsenter` then `sysrq-trigger`. -/
theorem neutralizeStuartLittle_first_success_witness :
    Manager.NeutralizeStuartLittle ⟨"/host/proc"⟩
        ⟨some (.base "exec failed"), "", .ok, none, none, none, none, "", none, ""⟩ = none ∧
    (Manager.neutralizeStuartLittleT ⟨"/host/proc"⟩
        ⟨some (.base "exec failed"), "", .ok, none, none, none, none, "", none, ""⟩).1 =
      ["nsenter", "sysrq-trigger"] := by
  have h := neutralizeStuartLittle_first_success ⟨"/host/proc"⟩
    ⟨some (.base "exec failed"), "", .ok, none, none, none, none, "", none, ""⟩
    1 (by simp [Manager.methods])
    (fun i hi => by
      interval_cases i
      exact ⟨.wrap ("nsenter poweroff failed, output: " ++ "") (.base "exec failed"), rfl⟩)
    rfl
  exact ⟨h.1, by rw [h.2]; rfl⟩

/-- C2: if every configured method fails, all three methods are attempted in
order (no single failure aborts the run early) and the run returns a single
non-nil error that wraps exactly the last (direct-command) method's error;
the structural equality shows the nsenter and sysrq errors are not chained
into the returned error. -/
theorem neutralizeStuartLittle_all_fail (m : Manager) (env : SysEnv)
    (e₁ e₂ e₃ : GoError)
    (h1 : m.shutdownViaNsenter env = .error e₁)
    (h2 : m.shutdownViaSysrq env = .error e₂)
    (h3 : m.shutdownViaDirect env = .error e₃) :
    (m.neutralizeStuartLittleT env).1 =
      ["nsenter", "sysrq-trigger", "direct-command"] ∧
    m.NeutralizeStuartLittle env =
      some (.wrap "all shutdown methods failed, last error" e₃) ∧
    (m.NeutralizeStuartLittle env).map GoError.unwrapErr = some (some e₃) := by
  refine ⟨?_, ?_, ?_⟩ <;>
    simp [Manager.neutralizeStuartLittleT, Manager.NeutralizeStuartLittle,
      Manager.methods, neutralizeLoop, h1, h2, h3, GoError.unwrapErr]

/-- Witness for C2: an environment in which nsenter's command fails, the
host proc path is absent, and both direct commands fail; all three methods
are attempted and the returned error wraps the direct-command error. -/
theorem neutralizeStuartLittle_all_fail_witness :
    (Manager.neutralizeStuartLittleT ⟨"/host/proc"⟩
        ⟨some (.base "exec failed"), "", .notExist, none, none, none,
         some (.base "exit 1"), "", some (.base "exit 1"), "denied"⟩).1 =
      ["nsenter", "sysrq-trigger", "direct-command"] ∧
    Manager.NeutralizeStuartLittle ⟨"/host/proc"⟩
        ⟨some (.base "exec failed"), "", .notExist, none, none, none,
         some (.base "exit 1"), "", some (.base "exit 1"), "denied"⟩ =
      some (.wrap "all shutdown methods failed, last error"
        (.wrap ("shutdown commands failed, output: " ++ "denied") (.base "exit 1"))) := by
  have h := neutralizeStuartLittle_all_fail ⟨"/host/proc"⟩
    ⟨some (.base "exec failed"), "", .notExist, none, none, none,
     some (.base "exit 1"), "", some (.base "exit 1"), "denied"⟩
    (.wrap ("nsenter poweroff failed, output: " ++ "") (.base "exec failed"))
    (.base ("host proc path not mounted: " ++ "/host/proc"))
    (.wrap ("shutdown commands failed, output: " ++ "denied") (.base "exit 1"))
    rfl rfl rfl
  exact ⟨h.1, h.2.1⟩

/-- C4: behaviour of the kernel-request-queue method.  If the host proc path
does not exist, the method fails at once with the "not mounted" error and
performs no write; otherwise the sync and remount writes are both attempted
(the write trace is exactly `s`, `u`, `o` regardless of their failures, which
only produce warnings) and the method succeeds exactly when the final
power-off write succeeds, failing with an error wrapping the power-off
write's error otherwise. -/
theorem shutdownViaSysrq_behavior (m : Manager) (env : SysEnv) :
    (env.statHostProc = .notExist →
      m.shutdownViaSysrqT env =
        ([], [], .error (.base ("host proc path not mounted: " ++ m.hostProcPath)))) ∧
    (env.statHostProc ≠ .notExist →
      (m.shutdownViaSysrqT env).1 = ["s", "u", "o"] ∧
      (m.shutdownViaSysrq env = .ok () ↔ env.writeO = none) ∧
      (∀ e, env.writeO = some e →
        m.shutdownViaSysrq env =
          .error (.wrap "failed to write to sysrq-trigger" e))) := by
  constructor
  · intro h
    simp [Manager.shutdownViaSysrqT, h]
  · intro h
    refine ⟨?_, ?_, ?_⟩
    · simp [Manager.shutdownViaSysrqT, h]
    · rcases ho : env.writeO with _ | e <;>
        simp [Manager.shutdownViaSysrq, Manager.shutdownViaSysrqT, h, ho]
    · intro e he
      simp [Manager.shutdownViaSysrq, Manager.shutdownViaSysrqT, h, he]

/-- Witness for C4 at two concrete environments: with the proc path absent
the method writes nothing and fails with the "not mounted" error; with the
path present and a failing power-off write the trace is `s`, `u`, `o` and the
method fails with an error wrapping the power-off write error. -/
theorem shutdownViaSysrq_behavior_witness :
    Manager.shutdownViaSysrqT ⟨"/host/proc"⟩
        ⟨none, "", .notExist, none, none, none, none, "", none, ""⟩ =
      ([], [], .error (.base ("host proc path not mounted: " ++ "/host/proc"))) ∧
    (Manager.shutdownViaSysrqT ⟨"/host/proc"⟩
        ⟨none, "", .ok, none, none, some (.base "eperm"), none, "", none, ""⟩).1 =
      ["s", "u", "o"] ∧
    Manager.shutdownViaSysrq ⟨"/host/proc"⟩
        ⟨none, "", .ok, none, none, some (.base "eperm"), none, "", none, ""⟩ =
      .error (.wrap "failed to write to sysrq-trigger" (.base "eperm")) := by
  have hA := (shutdownViaSysrq_behavior ⟨"/host/proc"⟩
    ⟨none, "", .notExist, none, none, none, none, "", none, ""⟩).1 rfl
  have hB := (shutdownViaSysrq_behavior ⟨"/host/proc"⟩
    ⟨none, "", .ok, none, none, some (.base "eperm"), none, "", none, ""⟩).2
    (by decide)
  exact ⟨hA, hB.1, hB.2.2 (.base "eperm") rfl⟩

/-- C5: destination of a remotely delivered log event.  When daily indices
are enabled the event is delivered to the base index name suffixed with the
current UTC calendar day; when disabled it is delivered to the static base
index name; the delivered document is the entry itself. -/
theorem sendToOpensearch_daily_index (l : DailyLogger) (entry : LogEntry)
    (utcDay : String) :
    (l.useDailyIndex = true →
      l.sendToOpensearch entry utcDay = (l.baseIndex ++ "-" ++ utcDay, entry)) ∧
    (l.useDailyIndex = false →
      l.sendToOpensearch entry utcDay = (l.baseIndex, entry)) := by
  constructor <;> intro h <;>
    simp [DailyLogger.sendToOpensearch, DailyLogger.getIndexName, h]

/-- Witness for C5: with daily indices enabled the target index is
`signalmice-logs-2024-12-28`; with them disabled it is `signalmice-logs`. -/
theorem sendToOpensearch_daily_index_witness :
    DailyLogger.sendToOpensearch ⟨none, "signalmice-logs", true, "h", "k"⟩
        ⟨"t", "INFO", "m", "h", "signalmice", "k", none⟩ "2024-12-28" =
      ("signalmice-logs" ++ "-" ++ "2024-12-28",
       ⟨"t", "INFO", "m", "h", "signalmice", "k", none⟩) ∧
    DailyLogger.sendToOpensearch ⟨none, "signalmice-logs", false, "h", "k"⟩
        ⟨"t", "INFO", "m", "h", "signalmice", "k", none⟩ "2024-12-28" =
      ("signalmice-logs", ⟨"t", "INFO", "m", "h", "signalmice", "k", none⟩) :=
  ⟨(sendToOpensearch_daily_index ⟨none, "signalmice-logs", true, "h", "k"⟩
      ⟨"t", "INFO", "m", "h", "signalmice", "k", none⟩ "2024-12-28").1 rfl,
   (sendToOpensearch_daily_index ⟨none, "signalmice-logs", false, "h", "k"⟩
      ⟨"t", "INFO", "m", "h", "signalmice", "k", none⟩ "2024-12-28").2 rfl⟩

/-- Every run of the event loop produces one cycle outcome per tick up to the
first termination signal. -/
theorem mainLoop_length (c : Client) (m : Manager) :
    ∀ (events : List LoopEvent) (st : Store),
      (mainLoop c m st events).1.length = (events.takeWhile LoopEvent.isTick).length
  | [], _ => rfl
  | .tick env :: rest, st => by
      simp [mainLoop, List.takeWhile_cons, LoopEvent.isTick,
        mainLoop_length c m rest]
  | .termSignal :: _, _ => by
      simp [mainLoop, List.takeWhile_cons, LoopEvent.isTick]

/-- The event loop ends in the `terminated` state exactly when the event
trace contains a termination signal. -/
theorem mainLoop_terminated_iff (c : Client) (m : Manager) :
    ∀ (events : List LoopEvent) (st : Store),
      ((mainLoop c m st events).2 = .terminated ↔ LoopEvent.termSignal ∈ events)
  | [], _ => by simp [mainLoop]
  | .tick env :: rest, st => by
      simp [mainLoop, mainLoop_terminated_iff c m rest]
  | .termSignal :: _, _ => by simp [mainLoop]

/-- C6: detection-cycle and orchestration errors never terminate the loop.
However the per-cycle environments are chosen (check errors, orchestration
failures included), the run produces exactly one cycle outcome for the
initial check plus one per tick preceding the first termination signal, and
it reaches the terminated state exactly when the event trace contains an
explicit termination signal. -/
theorem mainRun_errors_never_terminate (c : Client) (m : Manager)
    (initEnv : CycleEnv) (st : Store) (events : List LoopEvent) :
    (mainRun c m initEnv st events).1.length =
      1 + (events.takeWhile LoopEvent.isTick).length ∧
    ((mainRun c m initEnv st events).2 = .terminated ↔
      LoopEvent.termSignal ∈ events) := by
  constructor
  · simp [mainRun, mainLoop_length, Nat.add_comm]
  · simp [mainRun, mainLoop_terminated_iff]

/-- C8: the control loop performs exactly one detection cycle immediately:
for any event trace the first recorded outcome is that of the initial
`checkAndShutdown` run, and with no events at all (before the first tick)
exactly that one cycle has run. -/
theorem mainRun_initial_cycle (c : Client) (m : Manager) (initEnv : CycleEnv)
    (st : Store) (events : List LoopEvent) :
    (mainRun c m initEnv st events).1.head? =
      some (checkAndShutdown c m initEnv st).2 ∧
    (mainRun c m initEnv st []).1 = [(checkAndShutdown c m initEnv st).2] := by
  constructor <;> simp [mainRun, mainLoop]

/-- C10: logger construction never fails because the remote sink is
unreachable.  When the Opensearch client is created but the connection test
fails, `NewLogger` returns a `nil` error and a usable logger whose client is
`nil`; every log call on that logger still produces its stdout line and
dispatches nothing to the remote sink. -/
theorem newLogger_sink_unreachable (cfg : Config) (env : LoggerEnv)
    (e : GoError) (hclient : env.newClientErr = none)
    (hinfo : env.infoErr = some e) :
    NewLogger cfg env =
      .ok { client := none, index := cfg.OpensearchIndex,
            hostname := env.hostname, redisKey := cfg.RedisKey } ∧
    ∀ level message now extra,
      Logger.log { client := none, index := cfg.OpensearchIndex,
                   hostname := env.hostname, redisKey := cfg.RedisKey }
          level message now extra =
        ("[" ++ level ++ "] " ++ message, none) := by
  constructor
  · simp [NewLogger, hclient, hinfo]
  · intro level message now extra
    simp [Logger.log]

/-- Witness for C10: with the default configuration and a failed connection
test, `NewLogger` yields a client-less logger and no error, and an INFO log
call writes only the stdout line. -/
theorem newLogger_sink_unreachable_witness :
    NewLogger (Config.Load []) ⟨"host1", none, some (.base "conn refused")⟩ =
      .ok { client := none, index := (Config.Load []).OpensearchIndex,
            hostname := "host1", redisKey := (Config.Load []).RedisKey } ∧
    Logger.log { client := none, index := (Config.Load []).OpensearchIndex,
                 hostname := "host1", redisKey := (Config.Load []).RedisKey }
        "INFO" "test message" "2024-12-28T00:00:00Z" none =
      ("[" ++ "INFO" ++ "] " ++ "test message", none) := by
  have h := newLogger_sink_unreachable (Config.Load [])
    ⟨"host1", none, some (.base "conn refused")⟩ (.base "conn refused") rfl rfl
  exact ⟨h.1, h.2 "INFO" "test message" "2024-12-28T00:00:00Z" none⟩

end Signalmice
